import Mathlib

/- Verification development for the VectorDBTextAnalyzer repository.
   Shallow embedding of the two source files:
     src/vector_db.py                      (namespace VectorDB)
     src/PDF_retrieval/vector_db_pdf.py    (namespace VectorDBPDF)
   External collaborators (the weaviate store, pdfplumber, the process
   environment, the with-statement of the host language) are modelled by
   explicit state, oracles and operation traces; everything else is a
   direct translation of the Python source. -/

deriving instance DecidableEq for Except

/-- Model of the Python str.endswith method: suffix test on the character
sequence of the string. -/
def endswith (s suffix : String) : Bool :=
  suffix.data.isSuffixOf s.data

namespace VectorDB

/-- A chunk as accepted by populate_db: a dict with the keys
unique_identifier and text. -/
structure Chunk where
  unique_identifier : String
  text : String
deriving DecidableEq

/-- One object of a query response: its two properties and the
distance metadata requested with the query. Distances are modelled as
integers; the code only compares and displays them. -/
structure ResultObject where
  unique_identifier : String
  text : String
  distance : Int
deriving DecidableEq

/-- A query response as returned by the store: a list of scored objects
in whatever order the store produced. -/
structure SearchResponse where
  objects : List ResultObject
deriving DecidableEq

/-- A generative response: the single generated text. -/
structure GenResponse where
  generated : String
deriving DecidableEq

/-- Network operations the client code issues to the external store.
collections.get is purely local in the v4 client and therefore issues
no operation. -/
inductive NetOp where
  | connect (headers : List (String × Option String))
  | close
  | deleteCollection (name : String)
  | createCollection (name : String)
  | insertMany (name : String) (objs : List Chunk)
  | nearText (name : String) (query : String) (limit : Nat) (withDistance : Bool)
deriving DecidableEq

/-- Model of os.environ.get: lookup of a key in the process environment,
none when the key is absent. -/
def environ_get (env : List (String × String)) (key : String) : Option String :=
  (env.find? (fun p => p.1 == key)).map (fun p => p.2)

/-- The mutable attributes of a VectorDBTextAnalyzerBase instance. The
client handle is modelled by the headers it was opened with. -/
structure ClientState where
  api_key : Option String
  db_name : String
  client : Option (List (String × Option String))
deriving DecidableEq

/-- VectorDBTextAnalyzerBase.__init__: reads the OPENAI_API_KEY variable
with environ.get (so absence silently yields none) and leaves the client
unset. -/
def __init__ (env : List (String × String)) (db_name : String) : ClientState :=
  { api_key := environ_get env "OPENAI_API_KEY"
    db_name := db_name
    client := none }

/-- The headers passed to weaviate.connect_to_local by __enter__. -/
def connect_headers (st : ClientState) : List (String × Option String) :=
  [("X-OpenAI-Api-Key", st.api_key)]

/-- VectorDBTextAnalyzerBase.__enter__: connects to the local store with
the stored key as header and saves the client handle. -/
def __enter__ (st : ClientState) : ClientState × List NetOp :=
  ({ st with client := some (connect_headers st) }, [NetOp.connect (connect_headers st)])

/-- VectorDBTextAnalyzerBase.__exit__: closes the client if one is set. -/
def __exit__ (st : ClientState) : List NetOp :=
  match st.client with
  | some _ => [NetOp.close]
  | none => []

/-- Outcome of a block of code: normal termination or a raised error. -/
inductive Outcome (eps : Type) where
  | ok
  | raised (e : eps)

/-- Model of the with statement of the host language wrapped around a
client instance: __enter__ runs on entry, the body runs on the entered
state, and __exit__ runs on every exit path, whether the body terminated
normally or raised (language semantics of context managers). The body
reports its outcome and the network operations it issued; no repository
operation inside a with block reassigns the client attribute, so the
state seen by __exit__ is the entered state. -/
def with_block {eps : Type} (env : List (String × String)) (db_name : String)
    (body : ClientState → Outcome eps × List NetOp) : Outcome eps × List NetOp :=
  let st0 := __init__ env db_name
  let entered := __enter__ st0
  let ran := body entered.1
  (ran.1, entered.2 ++ ran.2 ++ __exit__ entered.1)

/-- State of the external store: the existing collections by name with
their records. Modelled from the documented contract of the external
store API as the code relies on it: delete removes every collection of
the given name and never fails, also when none exists; create fails when
the name is already taken and otherwise adds an empty collection. -/
abbrev Store := List (String × List Chunk)

/-- Error raised by the external store on a rejected create. -/
inductive StoreErr where
  | alreadyExists
deriving DecidableEq

/-- Model of client.collections.delete: removes any collection with the
given name; deleting an absent name is a no-op, not an error. -/
def collections_delete (name : String) (s : Store) : Store :=
  s.filter (fun c => !(c.1 == name))

/-- Model of client.collections.create: rejects an already-used name,
otherwise adds a fresh empty collection. -/
def collections_create (name : String) (s : Store) : Except StoreErr Store :=
  if s.any (fun c => c.1 == name) then Except.error StoreErr.alreadyExists
  else Except.ok ((name, []) :: s)

/-- VectorDBTextAnalyzerBase.create_db: optionally delete the collection
first, then create it. -/
def create_db (db_name : String) (cleanup : Bool) (s : Store) : Except StoreErr Store :=
  collections_create db_name (if cleanup then collections_delete db_name s else s)

/-- The error the specification says a precondition violation raises.
No code path of the repository constructs it. -/
inductive PyErr where
  | preconditionError
deriving DecidableEq

/-- VectorDBTextAnalyzerBase.populate_db: rebuilds the chunk dicts and
issues a single bulk insert. The store state is a parameter only so that
precondition claims can be stated about it: the code never inspects it,
because collections.get performs no existence check. -/
def populate_db (db_name : String) (store : Store) (chunks : List Chunk) :
    Except PyErr Unit × List NetOp :=
  let chunk_objs := chunks.map (fun chunk =>
    { unique_identifier := chunk.unique_identifier, text := chunk.text : Chunk })
  (Except.ok (), [NetOp.insertMany db_name chunk_objs])

/-- VectorDBTextAnalyzerBase.search: one near-text query against the
collection with the given limit (the source default is 3) and distance
metadata requested; the response of the store oracle is returned
unchanged. -/
def search (db_name : String) (store_near_text : String → Nat → SearchResponse)
    (query : String) (limit : Nat) : SearchResponse × List NetOp :=
  (store_near_text query limit, [NetOp.nearText db_name query limit true])

/-- The sorted view built on the first line of the results loop of
print_search_results: the response objects sorted ascending by distance
with the stable sort of the host language. -/
def response_objects (response : SearchResponse) : List ResultObject :=
  response.objects.mergeSort (fun a b => decide (a.distance ≤ b.distance))

/-- Observable behaviour of a procedure: the text it wrote to stdout and
the value it returned (none models the None return of the source). -/
structure Proc where
  stdout : String
  ret : Option String
deriving DecidableEq

/-- The lines printed for one result object inside the loop of
print_search_results. -/
def fmt_result (res_obj : ResultObject) : String :=
  "-------------------\n" ++
  "unique_identifier: " ++ res_obj.unique_identifier ++ "\n" ++
  "text: " ++ res_obj.text ++ "\n" ++
  "Distance: " ++ toString res_obj.distance ++ "\n"

/-- VectorDBTextAnalyzerBase.print_search_results: prints the query
header, then every response object in ascending-distance order, and
returns None. -/
def print_search_results (query : String) (response : SearchResponse) : Proc :=
  { stdout :=
      "_______QUERY_______\n" ++ query ++ "\n" ++
      "-------------------\n" ++
      "_______RESULTS_______\n" ++
      String.join ((response_objects response).map fmt_result) ++
      "\n\n"
    ret := none }

/-- VectorDBTextAnalyzerBase.print_generated_response: prints the query,
the task and the generated text, and returns None. -/
def print_generated_response (query : String) (generative_task : String)
    (response : GenResponse) : Proc :=
  { stdout :=
      "_______QUERY_______\n" ++ query ++ "\n" ++
      "_______TASK_______\n" ++ generative_task ++ "\n" ++
      "_______GENERATED RESULT________\n" ++ response.generated ++ "\n"
    ret := none }

end VectorDB

namespace VectorDBPDF

/-- A chunk produced by the PDF chunker: the dict built for every page. -/
structure PageChunk where
  filename : String
  chunk_number : Nat
  text : String
deriving DecidableEq

/-- Content of a directory entry: either content parseable as a PDF
document, carrying the text extracted from each page in document order
(possibly empty strings), or anything else. The extension of the entry
name is deliberately independent of the content. -/
inductive FileContent where
  | pdfDoc (pages : List String)
  | other (raw : String)
deriving DecidableEq

/-- A directory entry: its name and its content. -/
structure DataFile where
  filename : String
  content : FileContent
deriving DecidableEq

/-- Error raised by the external PDF library on unparseable input. -/
inductive PdfError where
  | parseFailure
deriving DecidableEq

/-- Model of pdfplumber.open combined with per-page extract_text: PDF
content yields its page texts, any other content raises. -/
def pdfplumber_open : FileContent → Except PdfError (List String)
  | FileContent.pdfDoc pages => Except.ok pages
  | FileContent.other _ => Except.error PdfError.parseFailure

/-- The enumerate loop body of extract_text_from_data_files: the page at
zero-based index i becomes the chunk numbered i + 1. -/
def numberPages (filename : String) : Nat → List String → List PageChunk
  | _, [] => []
  | i, page_text :: rest =>
      { filename := filename, chunk_number := i + 1, text := page_text } ::
        numberPages filename (i + 1) rest

/-- VectorDBTextAnalyzerPDF.extract_text_from_data_files over a directory
listing. Mirrors the source loop faithfully: an entry whose name does not
end in .pdf gets a skip notice printed, but the loop body then falls
through and opens the entry regardless, because the source has no
continue statement; a failed open raises and aborts the whole run.
Returns the outcome paired with the printed notices. -/
def extract_text_from_data_files : List DataFile → Except PdfError (List PageChunk) × List String
  | [] => (Except.ok [], [])
  | f :: rest =>
      let notices := if endswith f.filename ".pdf" then []
        else ["Skipping " ++ f.filename ++ " as it is not a PDF file"]
      match pdfplumber_open f.content with
      | Except.error e => (Except.error e, notices)
      | Except.ok pdf_pages =>
          match extract_text_from_data_files rest with
          | (Except.error e, msgs) => (Except.error e, notices ++ msgs)
          | (Except.ok pages, msgs) =>
              (Except.ok (numberPages f.filename 0 pdf_pages ++ pages), notices ++ msgs)

/-- The pages a PDF entry contributes: none for non-PDF content. -/
def contentPages : FileContent → List String
  | FileContent.pdfDoc pages => pages
  | FileContent.other _ => []

/-- Whether an entry has content parseable as a PDF. -/
def isPdfContent : FileContent → Bool
  | FileContent.pdfDoc _ => true
  | FileContent.other _ => false

/-- The chunks one valid PDF entry contributes: its pages in document
order, numbered from 1. -/
def pdfChunks (f : DataFile) : List PageChunk :=
  numberPages f.filename 0 (contentPages f.content)

/-- Network operations the PDF variant issues to the external store. -/
inductive NetOp where
  | deleteCollection (name : String)
  | createCollection (name : String)
  | insertMany (name : String) (objs : List PageChunk)
  | nearText (name : String) (query : String) (limit : Nat) (withDistance : Bool)
deriving DecidableEq

/-- VectorDBTextAnalyzerBase._populate_db of the PDF file: extracts the
chunks, rebuilds them as dicts with an integer chunk number, and issues a
single bulk insert; an extraction failure propagates and nothing is
inserted. -/
def _populate_db (db_name : String) (dir : List DataFile) :
    Except PdfError Unit × List NetOp :=
  match (extract_text_from_data_files dir).1 with
  | Except.error e => (Except.error e, [])
  | Except.ok chunks =>
      let chunk_objs := chunks.map (fun chunk =>
        { filename := chunk.filename, chunk_number := chunk.chunk_number
          text := chunk.text : PageChunk })
      (Except.ok (), [NetOp.insertMany db_name chunk_objs])

/-- VectorDBTextAnalyzerBase.create_db of the PDF file: optional delete,
create, then an unconditional call of _populate_db. -/
def create_db (db_name : String) (cleanup : Bool) (dir : List DataFile) :
    Except PdfError Unit × List NetOp :=
  let pre := (if cleanup then [NetOp.deleteCollection db_name] else []) ++
    [NetOp.createCollection db_name]
  let populated := _populate_db db_name dir
  (populated.1, pre ++ populated.2)

/-- One object of a query response of the PDF variant. -/
structure ResultObject where
  filename : String
  chunk_number : Nat
  distance : Int
deriving DecidableEq

/-- A query response of the PDF variant. -/
structure SearchResponse where
  objects : List ResultObject
deriving DecidableEq

/-- VectorDBTextAnalyzerBase.search_pages of the PDF file: one near-text
query with the hard-coded limit 3 and distance metadata requested; the
response of the store oracle is returned unchanged. -/
def search_pages (db_name : String) (store_near_text : String → Nat → SearchResponse)
    (query : String) : SearchResponse × List NetOp :=
  (store_near_text query 3, [NetOp.nearText db_name query 3 true])

/-- The sorted view built on the first line of the results loop of
print_search_results of the PDF file. -/
def response_objects (response : SearchResponse) : List ResultObject :=
  response.objects.mergeSort (fun a b => decide (a.distance ≤ b.distance))

end VectorDBPDF

section Helpers

lemma numberPages_length (fname : String) (i : Nat) (l : List String) :
    (VectorDBPDF.numberPages fname i l).length = l.length := by
  induction l generalizing i with
  | nil => rfl
  | cons p rest ih => simp [VectorDBPDF.numberPages, ih]

lemma numberPages_map_chunk_number (fname : String) (i : Nat) (l : List String) :
    (VectorDBPDF.numberPages fname i l).map VectorDBPDF.PageChunk.chunk_number =
      List.range' (i + 1) l.length := by
  induction l generalizing i with
  | nil => rfl
  | cons p rest ih => simp [VectorDBPDF.numberPages, List.range'_succ, ih]

lemma numberPages_filename (fname : String) (i : Nat) (l : List String)
    (c : VectorDBPDF.PageChunk) (hc : c ∈ VectorDBPDF.numberPages fname i l) :
    c.filename = fname := by
  induction l generalizing i with
  | nil => simp [VectorDBPDF.numberPages] at hc
  | cons p rest ih =>
      simp only [VectorDBPDF.numberPages, List.mem_cons] at hc
      rcases hc with h | h
      · rw [h]
      · exact ih (i + 1) h

lemma numberPages_chunk_number_gt (fname : String) (i : Nat) (l : List String)
    (c : VectorDBPDF.PageChunk) (hc : c ∈ VectorDBPDF.numberPages fname i l) :
    i < c.chunk_number := by
  induction l generalizing i with
  | nil => simp [VectorDBPDF.numberPages] at hc
  | cons p rest ih =>
      simp only [VectorDBPDF.numberPages, List.mem_cons] at hc
      rcases hc with h | h
      · subst h; exact Nat.lt_succ_self i
      · have := ih (i + 1) h; omega

lemma numberPages_keys_nodup (fname : String) (i : Nat) (l : List String) :
    ((VectorDBPDF.numberPages fname i l).map
      (fun c => (c.filename, c.chunk_number))).Nodup := by
  induction l generalizing i with
  | nil => simp [VectorDBPDF.numberPages]
  | cons p rest ih =>
      simp only [VectorDBPDF.numberPages, List.map_cons, List.nodup_cons]
      refine ⟨?_, ih (i + 1)⟩
      intro hmem
      rw [List.mem_map] at hmem
      obtain ⟨c, hc, hkey⟩ := hmem
      have hgt := numberPages_chunk_number_gt fname (i + 1) rest c hc
      have : c.chunk_number = i + 1 := congrArg Prod.snd hkey
      omega

lemma numberPages_key_fst (fname : String) (i : Nat) (l : List String)
    (x : String × Nat)
    (hx : x ∈ (VectorDBPDF.numberPages fname i l).map
      (fun c => (c.filename, c.chunk_number))) :
    x.1 = fname := by
  rw [List.mem_map] at hx
  obtain ⟨c, hc, hkey⟩ := hx
  have := numberPages_filename fname i l c hc
  rw [← hkey]
  exact this

lemma extract_all_pdf (dir : List VectorDBPDF.DataFile)
    (h : ∀ f ∈ dir, endswith f.filename ".pdf" = true ∧
      VectorDBPDF.isPdfContent f.content = true) :
    VectorDBPDF.extract_text_from_data_files dir =
      (Except.ok (dir.flatMap VectorDBPDF.pdfChunks), []) := by
  induction dir with
  | nil => rfl
  | cons f rest ih =>
      obtain ⟨h1, h2⟩ := h f (List.mem_cons_self f rest)
      have hrest := ih (fun g hg => h g (List.mem_cons_of_mem f hg))
      cases hc : f.content with
      | other raw => simp [VectorDBPDF.isPdfContent, hc] at h2
      | pdfDoc ps =>
          simp [VectorDBPDF.extract_text_from_data_files, h1, hc,
            VectorDBPDF.pdfplumber_open, hrest, VectorDBPDF.pdfChunks,
            VectorDBPDF.contentPages]

end Helpers

/-- Claim C1 (refuted as stated, code bug): the chunker does not skip a
directory entry whose name lacks the .pdf extension. It prints the skip
notice and then opens the entry as a PDF anyway: on non-PDF content the
open raises and aborts the whole run, so the remaining entries are not
processed, and an entry with PDF content but another extension does have
chunks emitted for it. -/
theorem extract_opens_non_pdf_entries :
    (VectorDBPDF.extract_text_from_data_files
        [⟨"notes.txt", VectorDBPDF.FileContent.other "plain text"⟩]).1 =
      Except.error VectorDBPDF.PdfError.parseFailure ∧
    (VectorDBPDF.extract_text_from_data_files
        [⟨"notes.txt", VectorDBPDF.FileContent.other "plain text"⟩]).2 =
      ["Skipping notes.txt as it is not a PDF file"] ∧
    (VectorDBPDF.extract_text_from_data_files
        [⟨"notes.txt", VectorDBPDF.FileContent.other "plain text"⟩,
         ⟨"a.pdf", VectorDBPDF.FileContent.pdfDoc ["p"]⟩]).1 =
      Except.error VectorDBPDF.PdfError.parseFailure ∧
    (VectorDBPDF.extract_text_from_data_files
        [⟨"scan.txt", VectorDBPDF.FileContent.pdfDoc ["page one"]⟩]).1 =
      Except.ok [⟨"scan.txt", 1, "page one"⟩] := by
  refine ⟨?_, ?_, ?_, ?_⟩ <;> decide

/-- Claim C2, counterexample: search does not sort; it returns the
response of the store unchanged, so a store response in descending
distance order comes back unsorted. -/
theorem search_returns_store_order_cex :
    ¬ List.Pairwise (fun a b : VectorDB.ResultObject => a.distance ≤ b.distance)
      ((VectorDB.search "TextChunks"
          (fun _ _ => ⟨[⟨"a", "ta", 5⟩, ⟨"b", "tb", 3⟩]⟩) "q" 3).1.objects) := by
  decide

/-- Claim C2 as amended: search forwards the query to the near-text
search of the store with the given limit and with distance metadata
requested, and returns the response of the store unchanged, in the order
the store produced; search_pages of the PDF variant does the same with
the hard-coded limit 3. -/
theorem search_forwards_query_unsorted (db_name query : String) (limit : Nat)
    (store_nt : String → Nat → VectorDB.SearchResponse)
    (pdf_store_nt : String → Nat → VectorDBPDF.SearchResponse) :
    (VectorDB.search db_name store_nt query limit).1 = store_nt query limit ∧
    (VectorDB.search db_name store_nt query limit).2 =
      [VectorDB.NetOp.nearText db_name query limit true] ∧
    (VectorDBPDF.search_pages db_name pdf_store_nt query).1 = pdf_store_nt query 3 ∧
    (VectorDBPDF.search_pages db_name pdf_store_nt query).2 =
      [VectorDBPDF.NetOp.nearText db_name query 3 true] :=
  ⟨rfl, rfl, rfl, rfl⟩

/-- Claim C4, counterexample: populate_db invoked on an empty store, in
which the target collection does not exist, still issues the bulk
insert and raises no precondition error. -/
theorem populate_db_inserts_without_collection_cex :
    (VectorDB.populate_db "TextChunks" [] [⟨"doc-1", "hello"⟩]).1 ≠
      Except.error VectorDB.PyErr.preconditionError ∧
    (VectorDB.populate_db "TextChunks" [] [⟨"doc-1", "hello"⟩]).2 =
      [VectorDB.NetOp.insertMany "TextChunks" [⟨"doc-1", "hello"⟩]] := by
  refine ⟨?_, ?_⟩ <;> decide

/-- Claim C4 as amended: populate_db performs no precondition check at
all. Whatever the store state, it succeeds on the client side and issues
exactly one bulk insert of the rebuilt chunk dicts; no precondition
error is ever raised by the repository code. -/
theorem populate_db_no_precondition_check (db_name : String)
    (store : VectorDB.Store) (chunks : List VectorDB.Chunk) :
    (VectorDB.populate_db db_name store chunks).1 = Except.ok () ∧
    (VectorDB.populate_db db_name store chunks).2 =
      [VectorDB.NetOp.insertMany db_name
        (chunks.map (fun c => ⟨c.unique_identifier, c.text⟩))] :=
  ⟨rfl, rfl⟩

/-- Claim C8, counterexample: with an empty process environment the
instance is built with api_key none, and entering the context still
establishes the client, passing the missing credential through in the
connection headers; no failure is raised by the repository code. -/
theorem missing_api_key_silently_forwarded_cex :
    (VectorDB.__init__ [] "TextChunks").api_key = none ∧
    ((VectorDB.__enter__ (VectorDB.__init__ [] "TextChunks")).1.client).isSome = true ∧
    (VectorDB.__enter__ (VectorDB.__init__ [] "TextChunks")).2 =
      [VectorDB.NetOp.connect [("X-OpenAI-Api-Key", none)]] :=
  ⟨rfl, rfl, rfl⟩

/-- Claim C8 as amended: when the OPENAI_API_KEY variable is absent from
the environment, construction stores none without error and entering the
context forwards the missing credential in the connection headers with
no validation; the client handle is established by the repository code,
so any connection-time failure could only come from the external
client. -/
theorem missing_api_key_forwarded (env : List (String × String)) (db_name : String)
    (h : VectorDB.environ_get env "OPENAI_API_KEY" = none) :
    (VectorDB.__enter__ (VectorDB.__init__ env db_name)).2 =
      [VectorDB.NetOp.connect [("X-OpenAI-Api-Key", none)]] ∧
    ((VectorDB.__enter__ (VectorDB.__init__ env db_name)).1.client).isSome = true := by
  constructor
  · simp [VectorDB.__enter__, VectorDB.__init__, VectorDB.connect_headers, h]
  · rfl

/-- Witness for the amended claim C8 at a concrete environment that
lacks the key. -/
theorem missing_api_key_forwarded_witness :
    VectorDB.environ_get [("PATH", "x")] "OPENAI_API_KEY" = none ∧
    ((VectorDB.__enter__ (VectorDB.__init__ [("PATH", "x")] "TextChunks")).2 =
        [VectorDB.NetOp.connect [("X-OpenAI-Api-Key", none)]] ∧
      ((VectorDB.__enter__ (VectorDB.__init__ [("PATH", "x")] "TextChunks")).1.client).isSome = true) :=
  ⟨by decide, missing_api_key_forwarded [("PATH", "x")] "TextChunks" (by decide)⟩

/-- Claim C10, counterexample: the two report operations are not pure
string-returning functions: each returns None and writes its report to
stdout. -/
theorem print_functions_not_string_returning_cex :
    (VectorDB.print_search_results "q" ⟨[]⟩).ret = none ∧
    (VectorDB.print_search_results "q" ⟨[]⟩).stdout ≠ "" ∧
    (VectorDB.print_generated_response "q" "t" ⟨"ans"⟩).ret = none ∧
    (VectorDB.print_generated_response "q" "t" ⟨"ans"⟩).stdout ≠ "" := by
  have h : VectorDB.response_objects ⟨[]⟩ = [] := by
    simp [VectorDB.response_objects]
  refine ⟨rfl, ?_, rfl, ?_⟩
  · simp only [VectorDB.print_search_results, h, List.map_nil]
    decide
  · decide

/-- Claim C10 as amended: both report operations return None, and the
text each writes to stdout is fully determined by its arguments: two
invocations on equal inputs write equal text. -/
theorem print_functions_deterministic (q q2 t t2 : String)
    (r r2 : VectorDB.SearchResponse) (g g2 : VectorDB.GenResponse)
    (hq : q = q2) (hr : r = r2) (ht : t = t2) (hg : g = g2) :
    (VectorDB.print_search_results q r).ret = none ∧
    (VectorDB.print_generated_response q t g).ret = none ∧
    (VectorDB.print_search_results q r).stdout =
      (VectorDB.print_search_results q2 r2).stdout ∧
    (VectorDB.print_generated_response q t g).stdout =
      (VectorDB.print_generated_response q2 t2 g2).stdout := by
  subst hq; subst hr; subst ht; subst hg
  exact ⟨rfl, rfl, rfl, rfl⟩

/-- Witness for the amended claim C10 at concrete inputs. -/
theorem print_functions_deterministic_witness :
    (VectorDB.print_search_results "q" ⟨[]⟩).ret = none ∧
    (VectorDB.print_generated_response "q" "t" ⟨"a"⟩).ret = none ∧
    (VectorDB.print_search_results "q" ⟨[]⟩).stdout =
      (VectorDB.print_search_results "q" ⟨[]⟩).stdout ∧
    (VectorDB.print_generated_response "q" "t" ⟨"a"⟩).stdout =
      (VectorDB.print_generated_response "q" "t" ⟨"a"⟩).stdout :=
  print_functions_deterministic "q" "q" "t" "t" ⟨[]⟩ ⟨[]⟩ ⟨"a"⟩ ⟨"a"⟩ rfl rfl rfl rfl

/-- Claim C5 (confirmed): the sorted view that the result-formatting
operation of either file builds from a response, and then prints, lists
the objects in non-decreasing distance order, whatever order the store
delivered them in. -/
theorem print_search_results_sorted_by_distance
    (r1 : VectorDB.SearchResponse) (r2 : VectorDBPDF.SearchResponse) :
    List.Pairwise (fun a b : VectorDB.ResultObject => a.distance ≤ b.distance)
      (VectorDB.response_objects r1) ∧
    List.Pairwise (fun a b : VectorDBPDF.ResultObject => a.distance ≤ b.distance)
      (VectorDBPDF.response_objects r2) := by
  constructor
  · have h := @List.sorted_mergeSort VectorDB.ResultObject
      (fun a b => decide (a.distance ≤ b.distance))
      (by intro a b c hab hbc
          simp only [decide_eq_true_eq] at hab hbc ⊢
          exact le_trans hab hbc)
      (by intro a b
          simp only [Bool.or_eq_true, decide_eq_true_eq]
          exact le_total a.distance b.distance)
      r1.objects
    exact h.imp (by intro a b hab; simpa using hab)
  · have h := @List.sorted_mergeSort VectorDBPDF.ResultObject
      (fun a b => decide (a.distance ≤ b.distance))
      (by intro a b c hab hbc
          simp only [decide_eq_true_eq] at hab hbc ⊢
          exact le_trans hab hbc)
      (by intro a b
          simp only [Bool.or_eq_true, decide_eq_true_eq]
          exact le_total a.distance b.distance)
      r2.objects
    exact h.imp (by intro a b hab; simpa using hab)

lemma collections_delete_no_hit (name : String) (s : VectorDB.Store) :
    (VectorDB.collections_delete name s).any (fun c => c.1 == name) = false := by
  rw [List.any_eq_false]
  intro x hx
  rw [VectorDB.collections_delete, List.mem_filter] at hx
  simpa using hx.2

lemma collections_delete_idem (name : String) (s : VectorDB.Store) :
    VectorDB.collections_delete name (VectorDB.collections_delete name s) =
      VectorDB.collections_delete name s := by
  simp [VectorDB.collections_delete, List.filter_filter]

/-- Claim C7 (confirmed): create_db with cleanup is idempotent. One call
on any store succeeds and produces the store with exactly one empty
collection of the target name; a second call deletes the fresh
collection (the modelled delete never fails, also on an absent name) and
recreates it, ending in the same state. -/
theorem create_db_cleanup_idempotent (name : String) (s : VectorDB.Store) :
    VectorDB.create_db name true s =
      Except.ok ((name, []) :: VectorDB.collections_delete name s) ∧
    VectorDB.create_db name true ((name, []) :: VectorDB.collections_delete name s) =
      Except.ok ((name, []) :: VectorDB.collections_delete name s) ∧
    ((name, []) :: VectorDB.collections_delete name s).filter (fun c => c.1 == name) =
      [(name, [])] := by
  refine ⟨?_, ?_, ?_⟩
  · simp [VectorDB.create_db, VectorDB.collections_create, collections_delete_no_hit]
  · have hdel : VectorDB.collections_delete name
        ((name, []) :: VectorDB.collections_delete name s) =
        VectorDB.collections_delete name s := by
      simp [VectorDB.collections_delete, List.filter_cons, List.filter_filter]
    simp [VectorDB.create_db, VectorDB.collections_create, hdel,
      collections_delete_no_hit]
  · simp [VectorDB.collections_delete, List.filter_cons, List.filter_filter]

/-- Claim C9 (confirmed): around any body, the scoped lifetime closes an
established connection on every exit path: the operation trace of the
with block always ends in close, whether the body terminated normally or
raised, and the exit handler closes exactly when a client handle exists. -/
theorem connection_closed_on_every_exit_path {eps : Type}
    (env : List (String × String)) (db_name : String)
    (body : VectorDB.ClientState → VectorDB.Outcome eps × List VectorDB.NetOp) :
    VectorDB.NetOp.close ∈ (VectorDB.with_block env db_name body).2 ∧
    ((VectorDB.with_block env db_name body).2).getLast? =
      some VectorDB.NetOp.close ∧
    (VectorDB.with_block env db_name body).1 =
      (body ((VectorDB.__enter__ (VectorDB.__init__ env db_name)).1)).1 ∧
    (∀ st : VectorDB.ClientState, VectorDB.__exit__ st =
      if st.client.isSome then [VectorDB.NetOp.close] else []) := by
  refine ⟨?_, ?_, rfl, ?_⟩
  · simp [VectorDB.with_block, VectorDB.__exit__, VectorDB.__enter__]
  · have htrace : (VectorDB.with_block env db_name body).2 =
        ([VectorDB.NetOp.connect
            (VectorDB.connect_headers (VectorDB.__init__ env db_name))] ++
          (body ((VectorDB.__enter__ (VectorDB.__init__ env db_name)).1)).2) ++
          [VectorDB.NetOp.close] := rfl
    rw [htrace, List.getLast?_append]
    rfl
  · intro st
    cases h : st.client with
    | some c => simp [VectorDB.__exit__, h]
    | none => simp [VectorDB.__exit__, h]

lemma pageChunk_map_eta (chunks : List VectorDBPDF.PageChunk) :
    chunks.map (fun chunk =>
      { filename := chunk.filename, chunk_number := chunk.chunk_number
        text := chunk.text : VectorDBPDF.PageChunk }) = chunks := by
  induction chunks with
  | nil => rfl
  | cons c t ih => rw [List.map_cons, ih]

/-- Claim C6 (confirmed): in the PDF variant, create_db always invokes
chunk extraction and bulk-inserts every extracted chunk as part of
collection creation, so creation and ingestion cannot be performed
separately: whenever extraction succeeds, the operation trace is the
optional delete, the create, then one bulk insert of all extracted
chunks. -/
theorem create_db_always_populates (db_name : String) (cleanup : Bool)
    (dir : List VectorDBPDF.DataFile) (chunks : List VectorDBPDF.PageChunk)
    (h : (VectorDBPDF.extract_text_from_data_files dir).1 = Except.ok chunks) :
    VectorDBPDF.create_db db_name cleanup dir =
      (Except.ok (),
        (if cleanup then [VectorDBPDF.NetOp.deleteCollection db_name] else []) ++
          [VectorDBPDF.NetOp.createCollection db_name,
           VectorDBPDF.NetOp.insertMany db_name chunks]) := by
  simp [VectorDBPDF.create_db, VectorDBPDF._populate_db, h, pageChunk_map_eta]

/-- Witness for claim C6 at a one-file directory with cleanup set. -/
theorem create_db_always_populates_witness :
    (VectorDBPDF.extract_text_from_data_files
        [⟨"a.pdf", VectorDBPDF.FileContent.pdfDoc ["p"]⟩]).1 =
      Except.ok [⟨"a.pdf", 1, "p"⟩] ∧
    VectorDBPDF.create_db "PDFText" true
        [⟨"a.pdf", VectorDBPDF.FileContent.pdfDoc ["p"]⟩] =
      (Except.ok (),
        (if true then [VectorDBPDF.NetOp.deleteCollection "PDFText"] else []) ++
          [VectorDBPDF.NetOp.createCollection "PDFText",
           VectorDBPDF.NetOp.insertMany "PDFText" [⟨"a.pdf", 1, "p"⟩]]) :=
  ⟨by decide, create_db_always_populates "PDFText" true
    [⟨"a.pdf", VectorDBPDF.FileContent.pdfDoc ["p"]⟩] [⟨"a.pdf", 1, "p"⟩] (by decide)⟩

/-- Claim C3 (confirmed): on a directory of valid PDF files with
pairwise distinct names, extraction succeeds with no skip notice and
emits, file by file in directory order, one chunk per page in document
order; the total count is the sum of the page counts, every chunk
carries the name of its file, sequence numbers run 1..pages within each
file, and the (filename, chunk_number) pairs are unique across the whole
output. -/
theorem chunker_one_chunk_per_page_unique (dir : List VectorDBPDF.DataFile)
    (hpdf : ∀ f ∈ dir, endswith f.filename ".pdf" = true ∧
      VectorDBPDF.isPdfContent f.content = true)
    (hnd : (dir.map VectorDBPDF.DataFile.filename).Nodup) :
    VectorDBPDF.extract_text_from_data_files dir =
      (Except.ok (dir.flatMap VectorDBPDF.pdfChunks), []) ∧
    (dir.flatMap VectorDBPDF.pdfChunks).length =
      (dir.map (fun f => (VectorDBPDF.contentPages f.content).length)).sum ∧
    (∀ f ∈ dir, (VectorDBPDF.pdfChunks f).map VectorDBPDF.PageChunk.chunk_number =
        List.range' 1 (VectorDBPDF.contentPages f.content).length ∧
      ∀ c ∈ VectorDBPDF.pdfChunks f, c.filename = f.filename) ∧
    ((dir.flatMap VectorDBPDF.pdfChunks).map
        (fun c => (c.filename, c.chunk_number))).Nodup := by
  refine ⟨extract_all_pdf dir hpdf, ?_, ?_, ?_⟩
  · rw [List.length_flatMap]
    congr 1
    simp only [Function.comp_def, VectorDBPDF.pdfChunks, numberPages_length]
  · intro f hf
    constructor
    · simpa using numberPages_map_chunk_number f.filename 0
        (VectorDBPDF.contentPages f.content)
    · intro c hc
      exact numberPages_filename f.filename 0 (VectorDBPDF.contentPages f.content) c hc
  · rw [List.map_flatMap, List.nodup_flatMap]
    constructor
    · intro f _
      exact numberPages_keys_nodup f.filename 0 (VectorDBPDF.contentPages f.content)
    · have hnd2 : List.Pairwise
          (fun f g : VectorDBPDF.DataFile => f.filename ≠ g.filename) dir :=
        List.pairwise_map.mp hnd
      refine hnd2.imp ?_
      intro f g hne x hxf hxg
      have h1 := numberPages_key_fst f.filename 0 (VectorDBPDF.contentPages f.content) x hxf
      have h2 := numberPages_key_fst g.filename 0 (VectorDBPDF.contentPages g.content) x hxg
      exact hne (h1 ▸ h2 ▸ rfl)

/-- Witness for claim C3 at a two-file directory with three pages in
total. -/
theorem chunker_one_chunk_per_page_unique_witness :
    (∀ f ∈ ([⟨"a.pdf", VectorDBPDF.FileContent.pdfDoc ["p1", "p2"]⟩,
        ⟨"b.pdf", VectorDBPDF.FileContent.pdfDoc ["q1"]⟩] :
          List VectorDBPDF.DataFile),
      endswith f.filename ".pdf" = true ∧
        VectorDBPDF.isPdfContent f.content = true) ∧
    (([⟨"a.pdf", VectorDBPDF.FileContent.pdfDoc ["p1", "p2"]⟩,
        ⟨"b.pdf", VectorDBPDF.FileContent.pdfDoc ["q1"]⟩] :
          List VectorDBPDF.DataFile).map VectorDBPDF.DataFile.filename).Nodup ∧
    (VectorDBPDF.extract_text_from_data_files
        [⟨"a.pdf", VectorDBPDF.FileContent.pdfDoc ["p1", "p2"]⟩,
         ⟨"b.pdf", VectorDBPDF.FileContent.pdfDoc ["q1"]⟩] =
      (Except.ok (([⟨"a.pdf", VectorDBPDF.FileContent.pdfDoc ["p1", "p2"]⟩,
          ⟨"b.pdf", VectorDBPDF.FileContent.pdfDoc ["q1"]⟩] :
            List VectorDBPDF.DataFile).flatMap VectorDBPDF.pdfChunks), []) ∧
      (([⟨"a.pdf", VectorDBPDF.FileContent.pdfDoc ["p1", "p2"]⟩,
          ⟨"b.pdf", VectorDBPDF.FileContent.pdfDoc ["q1"]⟩] :
            List VectorDBPDF.DataFile).flatMap VectorDBPDF.pdfChunks).length =
        (([⟨"a.pdf", VectorDBPDF.FileContent.pdfDoc ["p1", "p2"]⟩,
            ⟨"b.pdf", VectorDBPDF.FileContent.pdfDoc ["q1"]⟩] :
              List VectorDBPDF.DataFile).map
          (fun f => (VectorDBPDF.contentPages f.content).length)).sum ∧
      (∀ f ∈ ([⟨"a.pdf", VectorDBPDF.FileContent.pdfDoc ["p1", "p2"]⟩,
          ⟨"b.pdf", VectorDBPDF.FileContent.pdfDoc ["q1"]⟩] :
            List VectorDBPDF.DataFile),
        (VectorDBPDF.pdfChunks f).map VectorDBPDF.PageChunk.chunk_number =
          List.range' 1 (VectorDBPDF.contentPages f.content).length ∧
        ∀ c ∈ VectorDBPDF.pdfChunks f, c.filename = f.filename) ∧
      ((([⟨"a.pdf", VectorDBPDF.FileContent.pdfDoc ["p1", "p2"]⟩,
          ⟨"b.pdf", VectorDBPDF.FileContent.pdfDoc ["q1"]⟩] :
            List VectorDBPDF.DataFile).flatMap VectorDBPDF.pdfChunks).map
          (fun c => (c.filename, c.chunk_number))).Nodup) :=
  ⟨by decide, by decide,
    chunker_one_chunk_per_page_unique
      [⟨"a.pdf", VectorDBPDF.FileContent.pdfDoc ["p1", "p2"]⟩,
       ⟨"b.pdf", VectorDBPDF.FileContent.pdfDoc ["q1"]⟩]
      (by decide) (by decide)⟩
